import Mathlib

set_option autoImplicit false

/-!
Verification of the COE (Certificate of Enrollment) image-extraction core
(`src/COE.py`). The Python class `COE` is embedded shallowly: the mutable
object becomes an explicit `COEState` threaded through every method, each
method returns `Except COEError α × COEState` (the Python methods raise
`ValueError` with four distinct messages, modelled by the four `COEError`
constructors, and mutate `self`). PIL images are modelled as `RasterImage`:
a width, a height and a total pixel function; `crop` follows PIL's
`(left, upper, right, lower)` box semantics (size `right-left × lower-upper`,
out-of-bounds pixels read as 0). `resize` is modelled as nearest-neighbour
sampling at proportionally mapped source coordinates: it produces exactly the
requested dimensions and stretches (every target pixel samples the source at
independently scaled x and y), which is the behaviour the claims depend on;
the pixel-interpolation arithmetic of PIL's resampling filter is external
floating-point library behaviour and is abstracted by the sampling map.
Byte buffers are modelled by the decode oracle `FileData`: bytes that decode
as a raster image, bytes that open as a PDF (its pages in document order,
each page's embedded images in resource-list order), or neither.
-/

/-- An in-memory decoded bitmap: width and height in pixels and a pixel
lookup; reads outside the stored area return 0 (PIL pads crops with black). -/
structure RasterImage where
  width : Nat
  height : Nat
  pixel : Nat → Nat → Nat

/-- PIL `Image.crop((left, upper, right, lower))`: the result has size
`(right - left) × (lower - upper)` and pixel `(x, y)` reads the source at
`(left + x, upper + y)`, 0 when that falls outside the source. -/
def RasterImage.crop (img : RasterImage) (left upper right lower : Nat) : RasterImage :=
  { width := right - left
    height := lower - upper
    pixel := fun x y =>
      if left + x < img.width ∧ upper + y < img.height then
        img.pixel (left + x) (upper + y)
      else 0 }

/-- PIL `Image.resize((w, h))`: the result has exactly the requested
dimensions and samples the source at proportionally mapped coordinates
(stretching both axes independently; no letterboxing). -/
def RasterImage.resize (img : RasterImage) (w h : Nat) : RasterImage :=
  { width := w
    height := h
    pixel := fun x y => img.pixel (x * img.width / w) (y * img.height / h) }

/-- The four distinct `ValueError` messages raised by `COE.py`. -/
inductive COEError where
  /-- "Unsupported file format or corrupt data." (`load_file`) -/
  | unsupportedFormat
  /-- "The provided PDF does not contain any images." (`_extract_image_from_pdf`) -/
  | noEmbeddedImage
  /-- "No image loaded. Please load a file first." -/
  | imageNotLoaded
  /-- "Invalid field name." (`_extract_text_region`) -/
  | invalidField
deriving DecidableEq, Repr

/-- Decode oracle for the raw byte buffer handed to `COE.__init__`:
`rasterBytes img` are bytes `PIL.Image.open` decodes to `img`;
`pdfBytes pages` are bytes that raise `IOError` in `PIL.Image.open` but open
as a PDF whose pages (document order) each expose a list of embedded images
(resource-list order); `garbage` are bytes that decode as neither. -/
inductive FileData where
  | rasterBytes (img : RasterImage)
  | pdfBytes (pages : List (List RasterImage))
  | garbage

/-- The fields of the Python `COE` object, as set in `__init__` and mutated
by the methods: `image` (loaded image), the lazily cached `top_image_width`
and `cropped_height`, and the template constants. -/
structure COEState where
  file_data : FileData
  image : Option RasterImage
  target_width : Nat
  target_height : Nat
  top_image_x : Nat
  top_image_y : Nat
  top_image_width : Option Nat
  top_image_height : Nat
  semester_x : Nat
  semester_width : Nat
  semester_height : Nat
  student_name_x : Nat
  student_name_y : Nat
  student_name_width : Nat
  student_name_height : Nat
  course_x : Nat
  course_y : Nat
  course_width : Nat
  course_height : Nat
  student_no_x : Nat
  student_no_y : Nat
  student_no_width : Nat
  student_no_height : Nat
  acad_year_x : Nat
  acad_year_y : Nat
  acad_year_width : Nat
  acad_year_height : Nat
  block_no_x : Nat
  block_no_y : Nat
  block_no_width : Nat
  block_no_height : Nat
  bottom_image_x : Nat
  bottom_image_y : Nat
  cropped_width : Nat
  cropped_height : Option Nat

/-- `COE.__init__(file_data)`: stores the bytes and the template constants;
`image`, `top_image_width` and `cropped_height` start as `None`. -/
def COE.init (file_data : FileData) : COEState :=
  { file_data := file_data
    image := none
    target_width := 850
    target_height := 1000
    top_image_x := 0
    top_image_y := 112
    top_image_width := none
    top_image_height := 60
    semester_x := 300
    semester_width := 250
    semester_height := 17
    student_name_x := 105
    student_name_y := 20
    student_name_width := 400
    student_name_height := 20
    course_x := 105
    course_y := 40
    course_width := 400
    course_height := 20
    student_no_x := 665
    student_no_y := 20
    student_no_width := 150
    student_no_height := 20
    acad_year_x := 665
    acad_year_y := 40
    acad_year_width := 150
    acad_year_height := 20
    block_no_x := 275
    block_no_y := 0
    block_no_width := 100
    block_no_height := 25
    bottom_image_x := 0
    bottom_image_y := 206
    cropped_width := 520
    cropped_height := none }

/-- `COE._extract_image_from_pdf`: scan pages in document order; at the
first page whose image list is nonempty, decode and return its first image
immediately; if every page's list is empty, raise the no-embedded-image
error. -/
def COE.extract_image_from_pdf : List (List RasterImage) → Except COEError RasterImage
  | [] => .error .noEmbeddedImage
  | [] :: rest => COE.extract_image_from_pdf rest
  | (img :: _) :: _ => .ok img

/-- `COE.load_file`: try `PIL.Image.open` first; on `IOError` fall back to
the PDF path. Any exception from the PDF path — including the
no-embedded-image `ValueError` raised by `_extract_image_from_pdf` — is
caught by the blanket `except Exception` and re-raised as the generic
"Unsupported file format or corrupt data." error. -/
def COE.load_file (s : COEState) : Except COEError Unit × COEState :=
  match s.file_data with
  | .rasterBytes img => (.ok (), { s with image := some img })
  | .pdfBytes pages =>
    match COE.extract_image_from_pdf pages with
    | .ok img => (.ok (), { s with image := some img })
    | .error _ => (.error .unsupportedFormat, s)
  | .garbage => (.error .unsupportedFormat, s)

/-- `COE.resize_image`: requires a loaded image, then replaces it with its
resize to `(target_width, target_height)`. -/
def COE.resize_image (s : COEState) : Except COEError Unit × COEState :=
  match s.image with
  | none => (.error .imageNotLoaded, s)
  | some img =>
    (.ok (), { s with image := some (img.resize s.target_width s.target_height) })

/-- The width `get_top_image` uses: `if not self.top_image_width:` is the
Python falsy test, true for both `None` and `0`, in which case the source
image's current width is taken; otherwise the cached value is kept. -/
def COE.topWidth (s : COEState) (img : RasterImage) : Nat :=
  match s.top_image_width with
  | none => img.width
  | some t => if t = 0 then img.width else t

/-- `COE.get_top_image`: requires a loaded image; lazily caches
`top_image_width` (falsy test), then crops the box
`(top_image_x, top_image_y, top_image_x + width, top_image_y + height)`. -/
def COE.get_top_image (s : COEState) : Except COEError RasterImage × COEState :=
  match s.image with
  | none => (.error .imageNotLoaded, s)
  | some img =>
    let tw := COE.topWidth s img
    (.ok (img.crop s.top_image_x s.top_image_y (s.top_image_x + tw)
        (s.top_image_y + s.top_image_height)),
     { s with top_image_width := some tw })

/-- The height `get_bottom_image` uses: `cropped_height` when already
cached (an `is None` test, not a falsy test), else `target_height - 306`. -/
def COE.bottomHeight (s : COEState) : Nat :=
  match s.cropped_height with
  | none => s.target_height - 306
  | some c => c

/-- The bottom-band crop of a loaded image `img` under state `s`: box
`(bottom_image_x, bottom_image_y, bottom_image_x + cropped_width,
bottom_image_y + bottomHeight)`. -/
def COE.bottomImage (s : COEState) (img : RasterImage) : RasterImage :=
  img.crop s.bottom_image_x s.bottom_image_y (s.bottom_image_x + s.cropped_width)
    (s.bottom_image_y + COE.bottomHeight s)

/-- `COE.get_bottom_image`: requires a loaded image; lazily caches
`cropped_height = target_height - 306` when it is `None`, then crops the
bottom band. -/
def COE.get_bottom_image (s : COEState) : Except COEError RasterImage × COEState :=
  match s.image with
  | none => (.error .imageNotLoaded, s)
  | some img =>
    (.ok (COE.bottomImage s img), { s with cropped_height := some (COE.bottomHeight s) })

/-- The `coordinates` dictionary built inside `_extract_text_region`:
`field → (x, y, width, height)`. Note the `semester` entry's y coordinate is
the literal `0` (there is no `semester_y` attribute on the object at all),
while every other entry uses its own per-field y attribute. -/
def COE.coordinates (s : COEState) (field : String) : Option (Nat × Nat × Nat × Nat) :=
  if field = "student_name" then
    some (s.student_name_x, s.student_name_y, s.student_name_width, s.student_name_height)
  else if field = "course" then
    some (s.course_x, s.course_y, s.course_width, s.course_height)
  else if field = "student_no" then
    some (s.student_no_x, s.student_no_y, s.student_no_width, s.student_no_height)
  else if field = "acad_year" then
    some (s.acad_year_x, s.acad_year_y, s.acad_year_width, s.acad_year_height)
  else if field = "semester" then
    some (s.semester_x, 0, s.semester_width, s.semester_height)
  else if field = "block_no" then
    some (s.block_no_x, s.block_no_y, s.block_no_width, s.block_no_height)
  else none

/-- `COE._extract_text_region(field, from_bottom)`: look the field up in the
coordinates table (raising the invalid-field error when absent — this check
happens before any image access), fetch the top or bottom band, and crop
`(x, y, x + width, y + height)` from it in the band's coordinate space. -/
def COE.extract_text_region (s : COEState) (field : String) (from_bottom : Bool) :
    Except COEError RasterImage × COEState :=
  match COE.coordinates s field with
  | none => (.error .invalidField, s)
  | some (x, y, width, height) =>
    match (if from_bottom then COE.get_bottom_image s else COE.get_top_image s) with
    | (.ok image_source, s') => (.ok (image_source.crop x y (x + width) (y + height)), s')
    | (.error e, s') => (.error e, s')

/-- `COE.extract_semester`. -/
def COE.extract_semester (s : COEState) : Except COEError RasterImage × COEState :=
  COE.extract_text_region s "semester" false

/-- `COE.extract_block_no` (the one field taken `from_bottom=True`). -/
def COE.extract_block_no (s : COEState) : Except COEError RasterImage × COEState :=
  COE.extract_text_region s "block_no" true

/-- `COE.extract_student_name`. -/
def COE.extract_student_name (s : COEState) : Except COEError RasterImage × COEState :=
  COE.extract_text_region s "student_name" false

/-- `COE.extract_course`. -/
def COE.extract_course (s : COEState) : Except COEError RasterImage × COEState :=
  COE.extract_text_region s "course" false

/-- `COE.extract_student_no`. -/
def COE.extract_student_no (s : COEState) : Except COEError RasterImage × COEState :=
  COE.extract_text_region s "student_no" false

/-- `COE.extract_acad_year`. -/
def COE.extract_acad_year (s : COEState) : Except COEError RasterImage × COEState :=
  COE.extract_text_region s "acad_year" false

/-- One entry of the list built by `COE.extract_classes`: the dictionary
with keys class_code, unit_count, subject_name, schedule. -/
structure ClassData where
  class_code : RasterImage
  unit_count : RasterImage
  subject_name : RasterImage
  schedule : RasterImage

/-- One iteration body of the `extract_classes` loop at cursor `y`: crop the
45px row band `(0, y, cropped_width, y + 45)` and decompose it into the four
fixed sub-crops. -/
def COE.classRow (bottom_image : RasterImage) (cropped_width y : Nat) : ClassData :=
  let class_image := bottom_image.crop 0 y cropped_width (y + 45)
  let class_code_image := class_image.crop 0 0 90 45
  let unit_count_image := class_image.crop 490 5 520 40
  let middle_image := class_image.crop 90 0 470 45
  let subject_name_image := middle_image.crop 0 0 380 22
  let schedule_image := middle_image.crop 0 22 380 45
  { class_code := class_code_image
    unit_count := unit_count_image
    subject_name := subject_name_image
    schedule := schedule_image }

/-- The `while y + 45 <= bottom_image.height` loop of `extract_classes`,
starting at cursor `y` and advancing by 45 each iteration. -/
def COE.classRowsLoop (bottom_image : RasterImage) (cropped_width y : Nat) : List ClassData :=
  if _h : y + 45 ≤ bottom_image.height then
    COE.classRow bottom_image cropped_width y ::
      COE.classRowsLoop bottom_image cropped_width (y + 45)
  else []
termination_by bottom_image.height - y
decreasing_by omega

/-- `COE.extract_classes`: requires a loaded image, takes the bottom band,
then walks 45px class rows starting at cursor 30, dropping any partial
trailing band. -/
def COE.extract_classes (s : COEState) : Except COEError (List ClassData) × COEState :=
  match s.image with
  | none => (.error .imageNotLoaded, s)
  | some _ =>
    match COE.get_bottom_image s with
    | (.ok bottom_image, s') =>
      (.ok (COE.classRowsLoop bottom_image s.cropped_width 30), s')
    | (.error e, s') => (.error e, s')

/-- A concrete 600×800 all-zero raster image, used by the witnesses. -/
def sampleImage : RasterImage :=
  { width := 600, height := 800, pixel := fun _ _ => 0 }

/-- A second concrete raster image, distinguishable from `sampleImage`. -/
def sampleImage2 : RasterImage :=
  { width := 300, height := 200, pixel := fun _ _ => 1 }

/-- `Except` success test (the Python call returning without raising). -/
def exceptOk {α : Type} : Except COEError α → Bool
  | .ok _ => true
  | .error _ => false

/-- The canonical pipeline state: a fresh instance on raster bytes, after
`load_file` and `resize_image`. -/
def loadedState : COEState :=
  (COE.resize_image (COE.load_file (COE.init (FileData.rasterBytes sampleImage))).2).2

/-! ## Helper lemmas -/

/-- A crop's width is `right - left`. -/
theorem crop_width (img : RasterImage) (l u r lo : Nat) :
    (img.crop l u r lo).width = r - l := rfl

/-- A crop's height is `lower - upper`. -/
theorem crop_height (img : RasterImage) (l u r lo : Nat) :
    (img.crop l u r lo).height = lo - u := rfl

/-- A crop's pixel lookup, unfolded. -/
theorem crop_pixel (img : RasterImage) (l u r lo x y : Nat) :
    (img.crop l u r lo).pixel x y =
      if l + x < img.width ∧ u + y < img.height then img.pixel (l + x) (u + y) else 0 := rfl

/-- When every page of the PDF has an empty image list,
`_extract_image_from_pdf` raises the no-embedded-image error. -/
theorem extract_image_from_pdf_all_empty :
    ∀ pages : List (List RasterImage), pages.all List.isEmpty = true →
      COE.extract_image_from_pdf pages = .error .noEmbeddedImage := by
  intro pages h
  induction pages with
  | nil => rfl
  | cons p rest ih =>
    cases p with
    | nil =>
      simp only [List.all_cons, Bool.and_eq_true] at h
      exact ih h.2
    | cons a as => simp [List.all_cons, List.isEmpty] at h

/-- The class-row loop from cursor `y` produces the rows at cursors
`y, y + 45, y + 90, …`, exactly `(height - y) / 45` of them. -/
theorem classRowsLoop_eq (b : RasterImage) (cw y : Nat) :
    COE.classRowsLoop b cw y =
      (List.range ((b.height - y) / 45)).map (fun i => COE.classRow b cw (y + 45 * i)) := by
  rw [COE.classRowsLoop]
  split
  · next h =>
    rw [classRowsLoop_eq b cw (y + 45)]
    have hdiv : (b.height - y) / 45 = (b.height - (y + 45)) / 45 + 1 := by
      omega
    rw [hdiv, List.range_succ_eq_map, List.map_cons, List.map_map]
    refine congrArg₂ _ (by simp) ?_
    apply List.map_congr_left
    intro i _
    simp only [Function.comp]
    congr 1
    omega
  · next h =>
    rw [Nat.div_eq_of_lt (by omega), List.range_zero, List.map_nil]
termination_by b.height - y

/-- When `load_file` on a fresh instance leaves an image behind, the
resulting state is the fresh state with exactly that image stored. -/
theorem load_file_init_state (fd : FileData) (img : RasterImage)
    (h : (COE.load_file (COE.init fd)).2.image = some img) :
    (COE.load_file (COE.init fd)).2 = { COE.init fd with image := some img } := by
  cases fd with
  | rasterBytes i =>
    simp only [COE.load_file, COE.init, Option.some.injEq] at h ⊢
    rw [h]
  | pdfBytes pages =>
    cases hext : COE.extract_image_from_pdf pages with
    | ok i =>
      simp only [COE.load_file, COE.init, hext, Option.some.injEq] at h ⊢
      rw [h]
    | error e =>
      simp [COE.load_file, COE.init, hext] at h
  | garbage => simp [COE.load_file, COE.init] at h

/-! ## Claims -/

/-- C1: the claim says `load` fails with the distinct `NoEmbeddedImage`
error kind on a zero-image PDF, distinguishable from `UnsupportedFormat`.
Counterexample: on the two-page zero-image PDF, `load_file` fails with
`unsupportedFormat` (the blanket `except Exception` in `load_file` swallows
the inner error), and that is a different error kind from
`noEmbeddedImage`. -/
theorem c1_counterexample :
    (COE.load_file (COE.init (FileData.pdfBytes [[], []]))).1 =
      Except.error COEError.unsupportedFormat ∧
    COEError.unsupportedFormat ≠ COEError.noEmbeddedImage :=
  ⟨rfl, by decide⟩

/-- C1 (amended): for every PDF whose pages all have empty image lists, the
inner `_extract_image_from_pdf` raises the distinct no-embedded-image error,
but `load_file` catches it and fails with the generic `unsupportedFormat`
error — so at the `load` boundary the zero-image-PDF case is not
distinguishable from undecodable bytes. -/
theorem c1_zero_image_pdf (pages : List (List RasterImage))
    (h : pages.all List.isEmpty = true) :
    COE.extract_image_from_pdf pages = Except.error COEError.noEmbeddedImage ∧
    (COE.load_file (COE.init (FileData.pdfBytes pages))).1 =
      Except.error COEError.unsupportedFormat := by
  have hext := extract_image_from_pdf_all_empty pages h
  refine ⟨hext, ?_⟩
  simp [COE.load_file, COE.init, hext]

/-- C1 witness: the amended theorem applied to the concrete two-page
zero-image PDF. -/
theorem c1_zero_image_pdf_witness :
    ([[], []] : List (List RasterImage)).all List.isEmpty = true ∧
    (COE.extract_image_from_pdf [[], []] = Except.error COEError.noEmbeddedImage ∧
     (COE.load_file (COE.init (FileData.pdfBytes [[], []]))).1 =
       Except.error COEError.unsupportedFormat) :=
  ⟨rfl, c1_zero_image_pdf [[], []] rfl⟩

/-- C2: the claim says every extraction called before BOTH `load` and
`normalize` have completed fails with the not-loaded error — in particular
after `load` but before `resize_image`. Counterexample: on a freshly loaded
(never resized) 600×800 image, `extract_student_name` succeeds instead of
failing. -/
theorem c2_counterexample :
    exceptOk (COE.extract_student_name
      (COE.load_file (COE.init (FileData.rasterBytes sampleImage))).2).1 = true := rfl

/-- C2 (amended): the code only enforces the load half of the precondition:
when no image is loaded (`self.image is None`), every one of the nine
operations (`get_top_image`, `get_bottom_image`, the six named field
extractions and `extract_classes`) fails with `imageNotLoaded` and performs
no partial work (the state is returned unchanged); there is no
normalization check, so after `load_file` but before `resize_image`
extraction proceeds on the unnormalized image. -/
theorem c2_not_loaded (s : COEState) (h : s.image = none) :
    COE.get_top_image s = (Except.error COEError.imageNotLoaded, s) ∧
    COE.get_bottom_image s = (Except.error COEError.imageNotLoaded, s) ∧
    COE.extract_student_name s = (Except.error COEError.imageNotLoaded, s) ∧
    COE.extract_course s = (Except.error COEError.imageNotLoaded, s) ∧
    COE.extract_student_no s = (Except.error COEError.imageNotLoaded, s) ∧
    COE.extract_acad_year s = (Except.error COEError.imageNotLoaded, s) ∧
    COE.extract_semester s = (Except.error COEError.imageNotLoaded, s) ∧
    COE.extract_block_no s = (Except.error COEError.imageNotLoaded, s) ∧
    COE.extract_classes s = (Except.error COEError.imageNotLoaded, s) := by
  refine ⟨?_, ?_, ?_, ?_, ?_, ?_, ?_, ?_, ?_⟩ <;>
    simp [COE.get_top_image, COE.get_bottom_image, COE.extract_student_name,
      COE.extract_course, COE.extract_student_no, COE.extract_acad_year,
      COE.extract_semester, COE.extract_block_no, COE.extract_classes,
      COE.extract_text_region, COE.coordinates, h]

/-- C2 witness: the amended theorem applied to a fresh unloaded instance. -/
theorem c2_not_loaded_witness :
    (COE.init FileData.garbage).image = none ∧
    COE.extract_classes (COE.init FileData.garbage) =
      (Except.error COEError.imageNotLoaded, COE.init FileData.garbage) :=
  ⟨rfl, (c2_not_loaded (COE.init FileData.garbage) rfl).2.2.2.2.2.2.2.2⟩

/-- Running `extract_classes` on any state with a loaded image: it succeeds
with the row list at cursors `30, 75, 120, …`, one row per full 45px band
of the bottom image. -/
theorem extract_classes_run (s : COEState) (img : RasterImage) (h : s.image = some img) :
    (COE.extract_classes s).1 =
      Except.ok ((List.range ((COE.bottomHeight s - 30) / 45)).map
        fun i => COE.classRow (COE.bottomImage s img) s.cropped_width (30 + 45 * i)) := by
  have hrun : (COE.extract_classes s).1 =
      Except.ok (COE.classRowsLoop (COE.bottomImage s img) s.cropped_width 30) := by
    simp [COE.extract_classes, COE.get_bottom_image, h]
  have hh : (COE.bottomImage s img).height = COE.bottomHeight s := by
    simp only [COE.bottomImage, crop_height]
    omega
  rw [hrun, classRowsLoop_eq, hh]

/-- C3: with a loaded image, `extract_classes` succeeds — the empty list is
a valid result, never an error — and returns exactly `(H - 30) / 45` rows,
`H` the bottom-band height (in particular 14 rows for `H = 694`); every row
is the full 45px band at cursor `30 + 45·i`, so a partial trailing band is
dropped entirely, never returned truncated. For `H < 30` the natural
subtraction makes the count 0, matching the claim's "0 rows otherwise". -/
theorem c3_row_count (s : COEState) (img : RasterImage) (h : s.image = some img) :
    ((COE.extract_classes s).1 =
      Except.ok ((List.range ((COE.bottomHeight s - 30) / 45)).map
        fun i => COE.classRow (COE.bottomImage s img) s.cropped_width (30 + 45 * i))) ∧
    (∀ rows, (COE.extract_classes s).1 = Except.ok rows →
      rows.length = (COE.bottomHeight s - 30) / 45) := by
  refine ⟨extract_classes_run s img h, ?_⟩
  intro rows hr
  rw [extract_classes_run s img h, Except.ok.injEq] at hr
  subst hr
  simp

/-- C3 witness: at the canonical pipeline state the bottom band has height
694 and exactly 14 rows are returned. -/
theorem c3_row_count_witness :
    loadedState.image = some (RasterImage.resize sampleImage 850 1000) ∧
    ∀ rows, (COE.extract_classes loadedState).1 = Except.ok rows → rows.length = 14 := by
  refine ⟨rfl, fun rows hr => ?_⟩
  exact ((c3_row_count loadedState (RasterImage.resize sampleImage 850 1000) rfl).2
    rows hr).trans rfl

/-- Fixed dimensions of the four sub-crops of one class row. -/
theorem classRow_dims (b : RasterImage) (cw y : Nat) :
    (COE.classRow b cw y).class_code.width = 90 ∧
    (COE.classRow b cw y).class_code.height = 45 ∧
    (COE.classRow b cw y).subject_name.width = 380 ∧
    (COE.classRow b cw y).subject_name.height = 22 ∧
    (COE.classRow b cw y).schedule.width = 380 ∧
    (COE.classRow b cw y).schedule.height = 23 ∧
    (COE.classRow b cw y).unit_count.width = 30 ∧
    (COE.classRow b cw y).unit_count.height = 35 :=
  ⟨rfl, rfl, rfl, rfl, rfl, rfl, rfl, rfl⟩

/-- C5: every row returned by `extract_classes` decomposes into the four
sub-images with the fixed dimensions: class_code width 90, subject_name
380×22, schedule 380×23, unit_count width 30. -/
theorem c5_row_dims (s : COEState) (img : RasterImage) (rows : List ClassData)
    (h : s.image = some img) (hr : (COE.extract_classes s).1 = Except.ok rows) :
    ∀ row ∈ rows,
      row.class_code.width = 90 ∧
      row.subject_name.width = 380 ∧ row.subject_name.height = 22 ∧
      row.schedule.width = 380 ∧ row.schedule.height = 23 ∧
      row.unit_count.width = 30 := by
  rw [extract_classes_run s img h, Except.ok.injEq] at hr
  subst hr
  intro row hrow
  obtain ⟨i, _, rfl⟩ := List.mem_map.mp hrow
  obtain ⟨d1, _, d3, d4, d5, d6, d7, _⟩ :=
    classRow_dims (COE.bottomImage s img) s.cropped_width (30 + 45 * i)
  exact ⟨d1, d3, d4, d5, d6, d7⟩

/-- C5 witness: the first row of the canonical pipeline state has the four
fixed sub-image dimensions. -/
theorem c5_row_dims_witness :
    loadedState.image = some (RasterImage.resize sampleImage 850 1000) ∧
    ((COE.classRow (COE.bottomImage loadedState (RasterImage.resize sampleImage 850 1000))
        loadedState.cropped_width 30).class_code.width = 90 ∧
     (COE.classRow (COE.bottomImage loadedState (RasterImage.resize sampleImage 850 1000))
        loadedState.cropped_width 30).subject_name.width = 380 ∧
     (COE.classRow (COE.bottomImage loadedState (RasterImage.resize sampleImage 850 1000))
        loadedState.cropped_width 30).subject_name.height = 22 ∧
     (COE.classRow (COE.bottomImage loadedState (RasterImage.resize sampleImage 850 1000))
        loadedState.cropped_width 30).schedule.width = 380 ∧
     (COE.classRow (COE.bottomImage loadedState (RasterImage.resize sampleImage 850 1000))
        loadedState.cropped_width 30).schedule.height = 23 ∧
     (COE.classRow (COE.bottomImage loadedState (RasterImage.resize sampleImage 850 1000))
        loadedState.cropped_width 30).unit_count.width = 30) := by
  refine ⟨rfl, ?_⟩
  have hr := extract_classes_run loadedState (RasterImage.resize sampleImage 850 1000) rfl
  have hmem : COE.classRow (COE.bottomImage loadedState (RasterImage.resize sampleImage 850 1000))
      loadedState.cropped_width (30 + 45 * 0) ∈
      (List.range ((COE.bottomHeight loadedState - 30) / 45)).map
        (fun i => COE.classRow
          (COE.bottomImage loadedState (RasterImage.resize sampleImage 850 1000))
          loadedState.cropped_width (30 + 45 * i)) :=
    List.mem_map.mpr ⟨0, List.mem_range.mpr (by decide), rfl⟩
  exact c5_row_dims loadedState (RasterImage.resize sampleImage 850 1000) _ rfl hr _ hmem

/-- `resize_image` on a fresh-shaped state with an image: the image is
replaced by its resize to the canonical 850×1000 frame. -/
theorem resize_init_state (fd : FileData) (img : RasterImage) :
    (COE.resize_image { COE.init fd with image := some img }).2 =
      { COE.init fd with image := some (img.resize 850 1000) } := by
  simp [COE.resize_image, COE.init]

/-- C4: whatever the dimensions of the image `load_file` accepted,
`resize_image` replaces it with its resize to exactly 850×1000, and every
pixel of the result samples the source at proportionally stretched
coordinates on both axes independently (no letterboxing). -/
theorem c4_normalize_dims (fd : FileData) (img : RasterImage)
    (h : (COE.load_file (COE.init fd)).2.image = some img) :
    ((COE.resize_image (COE.load_file (COE.init fd)).2).2.image =
      some (img.resize 850 1000)) ∧
    (img.resize 850 1000).width = 850 ∧
    (img.resize 850 1000).height = 1000 ∧
    (∀ x y, (img.resize 850 1000).pixel x y =
      img.pixel (x * img.width / 850) (y * img.height / 1000)) := by
  rw [load_file_init_state fd img h, resize_init_state fd img]
  exact ⟨rfl, rfl, rfl, fun x y => rfl⟩

/-- C4 witness: the 600×800 sample image normalizes to 850×1000. -/
theorem c4_normalize_dims_witness :
    (COE.load_file (COE.init (FileData.rasterBytes sampleImage))).2.image = some sampleImage ∧
    (COE.resize_image (COE.load_file (COE.init (FileData.rasterBytes sampleImage))).2).2.image =
      some (sampleImage.resize 850 1000) ∧
    (sampleImage.resize 850 1000).width = 850 ∧
    (sampleImage.resize 850 1000).height = 1000 := by
  have h := c4_normalize_dims (FileData.rasterBytes sampleImage) sampleImage rfl
  exact ⟨rfl, h.1, h.2.1, h.2.2.1⟩

/-- C6: after `load_file` then `resize_image`, `extract_student_name`
returns exactly the 400×20 crop whose pixel `(x, y)` reads the canonical
850×1000 frame at offset `(105 + x, 132 + y)` — field offset `(105, 20)`
inside the top band at `y = 112`. -/
theorem c6_student_name (fd : FileData) (img : RasterImage)
    (h : (COE.load_file (COE.init fd)).2.image = some img) :
    ((COE.extract_student_name (COE.resize_image (COE.load_file (COE.init fd)).2).2).1 =
      Except.ok (((img.resize 850 1000).crop 0 112 850 172).crop 105 20 505 40)) ∧
    (((img.resize 850 1000).crop 0 112 850 172).crop 105 20 505 40).width = 400 ∧
    (((img.resize 850 1000).crop 0 112 850 172).crop 105 20 505 40).height = 20 ∧
    (∀ x y, x < 400 → y < 20 →
      (((img.resize 850 1000).crop 0 112 850 172).crop 105 20 505 40).pixel x y =
        (img.resize 850 1000).pixel (105 + x) (132 + y)) := by
  rw [load_file_init_state fd img h, resize_init_state fd img]
  refine ⟨rfl, rfl, rfl, ?_⟩
  intro x y hx hy
  have hw : (RasterImage.resize img 850 1000).width = 850 := rfl
  have hh : (RasterImage.resize img 850 1000).height = 1000 := rfl
  simp only [RasterImage.crop]
  rw [if_pos (by omega : (105 : Nat) + x < 850 - 0 ∧ 20 + y < 172 - 112)]
  rw [if_pos (show 0 + (105 + x) < (RasterImage.resize img 850 1000).width ∧
    112 + (20 + y) < (RasterImage.resize img 850 1000).height by rw [hw, hh]; omega)]
  congr 1 <;> omega

/-- C6 witness: the pipeline on the 600×800 sample image. -/
theorem c6_student_name_witness :
    (COE.load_file (COE.init (FileData.rasterBytes sampleImage))).2.image = some sampleImage ∧
    ((COE.extract_student_name
        (COE.resize_image (COE.load_file (COE.init (FileData.rasterBytes sampleImage))).2).2).1 =
      Except.ok (((sampleImage.resize 850 1000).crop 0 112 850 172).crop 105 20 505 40)) ∧
    (((sampleImage.resize 850 1000).crop 0 112 850 172).crop 105 20 505 40).width = 400 ∧
    (((sampleImage.resize 850 1000).crop 0 112 850 172).crop 105 20 505 40).height = 20 := by
  have h := c6_student_name (FileData.rasterBytes sampleImage) sampleImage rfl
  exact ⟨rfl, h.1, h.2.1, h.2.2.1⟩

/-- C7: `extract_semester` crops from the top band at `(300, 0, 250, 17)` —
the coordinates table maps "semester" to the literal y 0 in every state
(there is no `semester_y` attribute at all), unlike the other top-band
fields whose template y offsets are 20/40/20/40; on the normalized pipeline
the result is 250×17 with pixel `(x, y)` at canonical offset
`(300 + x, 112 + y)` — the band's very top row, and this literal behaviour
is preserved as-is. -/
theorem c7_semester (fd : FileData) (img : RasterImage)
    (h : (COE.load_file (COE.init fd)).2.image = some img) :
    (∀ s' : COEState, COE.coordinates s' "semester" =
      some (s'.semester_x, 0, s'.semester_width, s'.semester_height)) ∧
    ((COE.init fd).student_name_y = 20 ∧ (COE.init fd).course_y = 40 ∧
     (COE.init fd).student_no_y = 20 ∧ (COE.init fd).acad_year_y = 40) ∧
    ((COE.extract_semester (COE.resize_image (COE.load_file (COE.init fd)).2).2).1 =
      Except.ok (((img.resize 850 1000).crop 0 112 850 172).crop 300 0 550 17)) ∧
    (((img.resize 850 1000).crop 0 112 850 172).crop 300 0 550 17).width = 250 ∧
    (((img.resize 850 1000).crop 0 112 850 172).crop 300 0 550 17).height = 17 ∧
    (∀ x y, x < 250 → y < 17 →
      (((img.resize 850 1000).crop 0 112 850 172).crop 300 0 550 17).pixel x y =
        (img.resize 850 1000).pixel (300 + x) (112 + y)) := by
  rw [load_file_init_state fd img h, resize_init_state fd img]
  refine ⟨fun s' => by simp [COE.coordinates], ⟨rfl, rfl, rfl, rfl⟩, rfl, rfl, rfl, ?_⟩
  intro x y hx hy
  have hw : (RasterImage.resize img 850 1000).width = 850 := rfl
  have hh : (RasterImage.resize img 850 1000).height = 1000 := rfl
  simp only [RasterImage.crop]
  rw [if_pos (by omega : (300 : Nat) + x < 850 - 0 ∧ 0 + y < 172 - 112)]
  rw [if_pos (show 0 + (300 + x) < (RasterImage.resize img 850 1000).width ∧
    112 + (0 + y) < (RasterImage.resize img 850 1000).height by rw [hw, hh]; omega)]
  congr 1 <;> omega

/-- C7 witness: the pipeline on the 600×800 sample image. -/
theorem c7_semester_witness :
    (COE.load_file (COE.init (FileData.rasterBytes sampleImage))).2.image = some sampleImage ∧
    COE.coordinates (COE.init FileData.garbage) "semester" = some (300, 0, 250, 17) ∧
    ((COE.extract_semester
        (COE.resize_image (COE.load_file (COE.init (FileData.rasterBytes sampleImage))).2).2).1 =
      Except.ok (((sampleImage.resize 850 1000).crop 0 112 850 172).crop 300 0 550 17)) ∧
    (((sampleImage.resize 850 1000).crop 0 112 850 172).crop 300 0 550 17).width = 250 ∧
    (((sampleImage.resize 850 1000).crop 0 112 850 172).crop 300 0 550 17).height = 17 := by
  have h := c7_semester (FileData.rasterBytes sampleImage) sampleImage rfl
  exact ⟨rfl, h.1 (COE.init FileData.garbage), h.2.2.1, h.2.2.2.1, h.2.2.2.2.1⟩

/-- `extract_image_from_pdf` characterized: it returns exactly the head of
the first page with a nonempty image list (page-then-resource order), and
the no-embedded-image error when no page has one. -/
theorem extract_image_from_pdf_findSome (pages : List (List RasterImage)) :
    COE.extract_image_from_pdf pages =
      match pages.findSome? List.head? with
      | some img => Except.ok img
      | none => Except.error COEError.noEmbeddedImage := by
  induction pages with
  | nil => rfl
  | cons p rest ih =>
    cases p with
    | nil => simpa [COE.extract_image_from_pdf, List.findSome?_cons] using ih
    | cons a as => simp [COE.extract_image_from_pdf, List.findSome?_cons]

/-- C8: for PDF bytes whose first embedded image in page-then-resource
order is `img` (the head of the first page with a nonempty image list),
`load_file` succeeds and stores exactly `img`. Determinism across repeated
calls on identical bytes is inherent: `load_file` is a pure function of the
state, so equal inputs give equal results. -/
theorem c8_first_pdf_image (pages : List (List RasterImage)) (img : RasterImage)
    (h : pages.findSome? List.head? = some img) :
    COE.extract_image_from_pdf pages = Except.ok img ∧
    (COE.load_file (COE.init (FileData.pdfBytes pages))).1 = Except.ok () ∧
    (COE.load_file (COE.init (FileData.pdfBytes pages))).2.image = some img := by
  have hx := extract_image_from_pdf_findSome pages
  rw [h] at hx
  refine ⟨hx, ?_, ?_⟩ <;> simp [COE.load_file, COE.init, hx]

/-- C8 witness: a three-page PDF whose first nonempty page holds two
images; the first image of that page is loaded, not the later ones. -/
theorem c8_first_pdf_image_witness :
    ([[], [sampleImage, sampleImage2], [sampleImage2]] :
      List (List RasterImage)).findSome? List.head? = some sampleImage ∧
    COE.extract_image_from_pdf [[], [sampleImage, sampleImage2], [sampleImage2]] =
      Except.ok sampleImage ∧
    (COE.load_file (COE.init
      (FileData.pdfBytes [[], [sampleImage, sampleImage2], [sampleImage2]]))).2.image =
      some sampleImage := by
  have h := c8_first_pdf_image [[], [sampleImage, sampleImage2], [sampleImage2]] sampleImage rfl
  exact ⟨rfl, h.1, h.2.2⟩

/-- Writing back the lazily cached top width leaves `topWidth` unchanged:
the Python falsy test gives the same width on the second call. -/
theorem topWidth_stable (s : COEState) (img : RasterImage) :
    COE.topWidth { s with top_image_width := some (COE.topWidth s img) } img =
      COE.topWidth s img := by
  simp only [COE.topWidth]
  cases hs : s.top_image_width with
  | none => simp
  | some t =>
    by_cases ht : t = 0 <;> simp [ht]

/-- `_extract_text_region` with a valid field and `from_bottom=False` on a
loaded image: the crop of the top band, with `top_image_width` cached. -/
theorem extract_text_region_top_run (s : COEState) (img : RasterImage)
    (h : s.image = some img) (field : String) (x y w hgt : Nat)
    (hc : COE.coordinates s field = some (x, y, w, hgt)) :
    COE.extract_text_region s field false =
      (Except.ok ((img.crop s.top_image_x s.top_image_y
          (s.top_image_x + COE.topWidth s img)
          (s.top_image_y + s.top_image_height)).crop x y (x + w) (y + hgt)),
       { s with top_image_width := some (COE.topWidth s img) }) := by
  simp [COE.extract_text_region, hc, COE.get_top_image, h]

/-- `_extract_text_region` with a valid field and `from_bottom=True` on a
loaded image: the crop of the bottom band, with `cropped_height` cached. -/
theorem extract_text_region_bottom_run (s : COEState) (img : RasterImage)
    (h : s.image = some img) (field : String) (x y w hgt : Nat)
    (hc : COE.coordinates s field = some (x, y, w, hgt)) :
    COE.extract_text_region s field true =
      (Except.ok ((COE.bottomImage s img).crop x y (x + w) (y + hgt)),
       { s with cropped_height := some (COE.bottomHeight s) }) := by
  simp [COE.extract_text_region, hc, COE.get_bottom_image, h]

/-- A second top-band extraction on the state left by the first returns the
identical result: the cached `top_image_width` equals the width the first
call used. -/
theorem extract_text_region_top_second (s : COEState) (img : RasterImage)
    (h : s.image = some img) (field : String) (x y w hgt : Nat)
    (hc : COE.coordinates s field = some (x, y, w, hgt)) :
    COE.extract_text_region ((COE.extract_text_region s field false).2) field false =
      COE.extract_text_region s field false := by
  have h1 := extract_text_region_top_run s img h field x y w hgt hc
  have h2 := extract_text_region_top_run
    { s with top_image_width := some (COE.topWidth s img) } img h field x y w hgt hc
  rw [h1, h2, topWidth_stable]

/-- A second bottom-band extraction on the state left by the first returns
the identical result: the cached `cropped_height` equals the height the
first call used. -/
theorem extract_text_region_bottom_second (s : COEState) (img : RasterImage)
    (h : s.image = some img) (field : String) (x y w hgt : Nat)
    (hc : COE.coordinates s field = some (x, y, w, hgt)) :
    COE.extract_text_region ((COE.extract_text_region s field true).2) field true =
      COE.extract_text_region s field true := by
  have h1 := extract_text_region_bottom_run s img h field x y w hgt hc
  have h2 := extract_text_region_bottom_run
    { s with cropped_height := some (COE.bottomHeight s) } img h field x y w hgt hc
  rw [h1, h2]
  rfl

/-- C9: on any state with a loaded image, calling each named field
extraction a second time on the instance state left by the first call
returns the identical result (and state), despite the lazy caching of
`top_image_width` and `cropped_height` on first use. -/
theorem c9_idempotent (s : COEState) (img : RasterImage) (h : s.image = some img) :
    COE.extract_student_name ((COE.extract_student_name s).2) = COE.extract_student_name s ∧
    COE.extract_course ((COE.extract_course s).2) = COE.extract_course s ∧
    COE.extract_student_no ((COE.extract_student_no s).2) = COE.extract_student_no s ∧
    COE.extract_acad_year ((COE.extract_acad_year s).2) = COE.extract_acad_year s ∧
    COE.extract_semester ((COE.extract_semester s).2) = COE.extract_semester s ∧
    COE.extract_block_no ((COE.extract_block_no s).2) = COE.extract_block_no s :=
  ⟨extract_text_region_top_second s img h "student_name" _ _ _ _ rfl,
   extract_text_region_top_second s img h "course" _ _ _ _ rfl,
   extract_text_region_top_second s img h "student_no" _ _ _ _ rfl,
   extract_text_region_top_second s img h "acad_year" _ _ _ _ rfl,
   extract_text_region_top_second s img h "semester" _ _ _ _ rfl,
   extract_text_region_bottom_second s img h "block_no" _ _ _ _ rfl⟩

/-- C9 witness: repeated extraction on the canonical pipeline state. -/
theorem c9_idempotent_witness :
    loadedState.image = some (RasterImage.resize sampleImage 850 1000) ∧
    COE.extract_student_name ((COE.extract_student_name loadedState).2) =
      COE.extract_student_name loadedState ∧
    COE.extract_block_no ((COE.extract_block_no loadedState).2) =
      COE.extract_block_no loadedState := by
  have h := c9_idempotent loadedState (RasterImage.resize sampleImage 850 1000) rfl
  exact ⟨rfl, h.1, h.2.2.2.2.2⟩

/-- Whenever the requested field is in the coordinates table, the
invalid-field error cannot be the result, loaded or not: the field check
precedes the image check, and the band getters only raise the not-loaded
error. -/
theorem extract_text_region_not_invalid (s : COEState) (field : String) (fb : Bool)
    (x y w hgt : Nat) (hc : COE.coordinates s field = some (x, y, w, hgt)) :
    (COE.extract_text_region s field fb).1 ≠ Except.error COEError.invalidField := by
  cases fb <;> cases hsi : s.image <;>
    simp [COE.extract_text_region, hc, COE.get_top_image, COE.get_bottom_image, hsi]

/-- C10: each named extraction passes a field name that is a key of the
coordinates table, so the invalid-field branch of `_extract_text_region` is
unreachable from every named operation, in every state. -/
theorem c10_invalid_unreachable (s : COEState) :
    (COE.extract_student_name s).1 ≠ Except.error COEError.invalidField ∧
    (COE.extract_course s).1 ≠ Except.error COEError.invalidField ∧
    (COE.extract_student_no s).1 ≠ Except.error COEError.invalidField ∧
    (COE.extract_acad_year s).1 ≠ Except.error COEError.invalidField ∧
    (COE.extract_semester s).1 ≠ Except.error COEError.invalidField ∧
    (COE.extract_block_no s).1 ≠ Except.error COEError.invalidField :=
  ⟨extract_text_region_not_invalid s "student_name" false _ _ _ _ rfl,
   extract_text_region_not_invalid s "course" false _ _ _ _ rfl,
   extract_text_region_not_invalid s "student_no" false _ _ _ _ rfl,
   extract_text_region_not_invalid s "acad_year" false _ _ _ _ rfl,
   extract_text_region_not_invalid s "semester" false _ _ _ _ rfl,
   extract_text_region_not_invalid s "block_no" true _ _ _ _ rfl⟩
